import Mathlib

/-!
Verification of the game_of_life repository against its specification.

The sources available are: the `SystemModel` class (setters, `getModel`,
`addOnChangeListener`), the `presetGroups` catalog declaration, the unit
test of `numberOfAlive`, and the frontend callers.  Components whose
implementation is not among the sources (the sparse `Grid` and its `step`,
the `numberOfAlive` body, the coordinate transforms, zoom, and the engine's
`setPreset`) are modelled from the specification; their doc comments say so
explicitly.
-/

namespace GameOfLife

/-- Modelled from the spec: `CellState` is a two-valued tag Alive/Dead
(src has only the test importing `stateType` with members `ALIVE`, `DEAD`). -/
inductive stateType where
  | ALIVE
  | DEAD
deriving DecidableEq, Repr

/-- Modelled from the spec: the `numberOfAlive` implementation is not among
the sources (only its unit test is).  `count(neighbors: ordered sequence of
8 optional CellState) -> integer in [0,8]`; a missing (absent) entry and an
explicit Dead entry are equivalent, both count as not-alive. -/
def numberOfAlive (neighbors : List (Option stateType)) : Nat :=
  neighbors.countP (fun o => o = some stateType.ALIVE)

/-- A grid point is an integer (row, col) pair; the grid is the sparse set
of alive cells, absence meaning Dead. -/
abbrev GridPoint := ℤ × ℤ

/-- Modelled from the spec: the sparse `Grid` is a set of alive coordinates. -/
abbrev Grid := Finset GridPoint

/-- The 8 relative neighbor offsets of a cell. -/
def neighborOffsets : List (ℤ × ℤ) :=
  [(-1, -1), (-1, 0), (-1, 1), (0, -1), (0, 1), (1, -1), (1, 0), (1, 1)]

/-- Translate a point by an offset. -/
def translate (p d : ℤ × ℤ) : ℤ × ℤ :=
  (p.1 + d.1, p.2 + d.2)

/-- Modelled from the spec: the ordered sequence of the 8 neighbor states of
`p`, fed to the NeighborCounter. -/
def neighborStates (g : Grid) (p : GridPoint) : List (Option stateType) :=
  neighborOffsets.map
    (fun d => if translate p d ∈ g then some stateType.ALIVE else some stateType.DEAD)

/-- Modelled from the spec: for each candidate, count alive neighbors via the
NeighborCounter. -/
def aliveNeighbors (g : Grid) (p : GridPoint) : Nat :=
  numberOfAlive (neighborStates g p)

/-- The set of the 8 neighbors of a point. -/
def neighborsOf (p : GridPoint) : Finset GridPoint :=
  (neighborOffsets.map (translate p)).toFinset

/-- Modelled from the spec: the candidate set is the union of all
currently-alive coordinates and their 8 neighbors. -/
def candidates (g : Grid) : Finset GridPoint :=
  g ∪ g.biUnion neighborsOf

/-- Modelled from the spec: `step` evaluates exactly the candidate set under
the standard rule — a Dead cell becomes Alive iff exactly 3 neighbors are
Alive; an Alive cell remains Alive iff 2 or 3 neighbors are Alive. -/
def step (g : Grid) : Grid :=
  (candidates g).filter
    (fun p =>
      (p ∈ g ∧ (aliveNeighbors g p = 2 ∨ aliveNeighbors g p = 3)) ∨
        (p ∉ g ∧ aliveNeighbors g p = 3))

/-- The 3-cell horizontal blinker of the spec: (0,0), (0,1), (0,2) alive. -/
def blinker : Grid :=
  {(0, 0), (0, 1), (0, 2)}

/- Helper lemmas about neighbor counting. -/

theorem aliveNeighbors_eq_countP (g : Grid) (p : GridPoint) :
    aliveNeighbors g p = neighborOffsets.countP (fun d => translate p d ∈ g) := by
  unfold aliveNeighbors numberOfAlive neighborStates
  rw [List.countP_map]
  apply List.countP_congr
  intro d _
  by_cases h : translate p d ∈ g <;> simp [h]

theorem neg_offset_mem : ∀ d ∈ neighborOffsets, (-d.1, -d.2) ∈ neighborOffsets := by
  decide

theorem mem_neighborsOf (q p : GridPoint) :
    p ∈ neighborsOf q ↔ ∃ d ∈ neighborOffsets, translate q d = p := by
  simp [neighborsOf]

theorem mem_candidates_of_count (g : Grid) (p : GridPoint)
    (h : 0 < aliveNeighbors g p) : p ∈ candidates g := by
  rw [aliveNeighbors_eq_countP, List.countP_pos_iff] at h
  obtain ⟨d, hd, hmem⟩ := h
  simp only [decide_eq_true_eq] at hmem
  apply Finset.mem_union_right
  rw [Finset.mem_biUnion]
  refine ⟨translate p d, hmem, ?_⟩
  rw [mem_neighborsOf]
  refine ⟨(-d.1, -d.2), neg_offset_mem d hd, ?_⟩
  unfold translate
  apply Prod.ext <;> simp

theorem mem_step (g : Grid) (p : GridPoint) :
    p ∈ step g ↔
      (p ∈ g ∧ (aliveNeighbors g p = 2 ∨ aliveNeighbors g p = 3)) ∨
        (p ∉ g ∧ aliveNeighbors g p = 3) := by
  unfold step
  rw [Finset.mem_filter]
  constructor
  · exact fun h => h.2
  · intro h
    refine ⟨?_, h⟩
    rcases h with ⟨hp, _⟩ | ⟨_, hc⟩
    · exact Finset.mem_union_left _ hp
    · exact mem_candidates_of_count g p (by omega)

/-- C1: for every Grid, `step` produces the next generation by evaluating
exactly the candidate set (alive cells and their 8 neighbors) under the
standard rule: a Dead cell becomes Alive iff exactly 3 neighbors are Alive,
an Alive cell remains Alive iff 2 or 3 neighbors are Alive; the 3-cell
blinker (0,0),(0,1),(0,2) returns to its original coordinate set after
exactly 2 steps, and an empty Grid steps to an empty Grid. -/
theorem step_standard_rule :
    (∀ (g : Grid) (p : GridPoint),
        p ∈ step g ↔
          (p ∈ g ∧ (aliveNeighbors g p = 2 ∨ aliveNeighbors g p = 3)) ∨
            (p ∉ g ∧ aliveNeighbors g p = 3)) ∧
    step (∅ : Grid) = ∅ ∧
    step (step blinker) = blinker ∧
    step blinker ≠ blinker :=
  ⟨mem_step, by decide, by decide, by decide⟩

/-- C2: `numberOfAlive` over an 8-entry sequence of optional cell states
returns a value in [0,8], treats an absent entry exactly like an explicit
Dead entry, returns 0 when all entries are Dead or absent, 8 when all 8 are
Alive, and 1 when exactly one entry is Alive and the rest Dead or absent. -/
theorem numberOfAlive_spec :
    (∀ l : List (Option stateType), l.length = 8 → numberOfAlive l ≤ 8) ∧
    (∀ l₁ l₂ : List (Option stateType),
        numberOfAlive (l₁ ++ some stateType.DEAD :: l₂) =
          numberOfAlive (l₁ ++ none :: l₂)) ∧
    (∀ l : List (Option stateType),
        (∀ o ∈ l, o = some stateType.DEAD ∨ o = none) → numberOfAlive l = 0) ∧
    numberOfAlive (List.replicate 8 (some stateType.ALIVE)) = 8 ∧
    (∀ l₁ l₂ : List (Option stateType),
        (∀ o ∈ l₁, o = some stateType.DEAD ∨ o = none) →
          (∀ o ∈ l₂, o = some stateType.DEAD ∨ o = none) →
            numberOfAlive (l₁ ++ some stateType.ALIVE :: l₂) = 1) := by
  have hzero : ∀ l : List (Option stateType),
      (∀ o ∈ l, o = some stateType.DEAD ∨ o = none) → numberOfAlive l = 0 := by
    intro l hl
    rw [numberOfAlive, List.countP_eq_zero]
    intro o ho
    rcases hl o ho with h | h <;> subst h <;> simp
  refine ⟨?_, ?_, hzero, by decide, ?_⟩
  · intro l hl
    calc numberOfAlive l ≤ l.length := List.countP_le_length _
      _ = 8 := hl
  · intro l₁ l₂
    unfold numberOfAlive
    rw [List.countP_append, List.countP_append, List.countP_cons, List.countP_cons]
    simp
  · intro l₁ l₂ h₁ h₂
    unfold numberOfAlive
    rw [List.countP_append, List.countP_cons]
    have e₁ : numberOfAlive l₁ = 0 := hzero l₁ h₁
    have e₂ : numberOfAlive l₂ = 0 := hzero l₂ h₂
    unfold numberOfAlive at e₁ e₂
    rw [e₁, e₂]
    simp

/-- Witness for C2 at the inputs of the repository's unit test: eight absent
entries count 0, eight Dead entries count 0, one Alive among Dead/absent
counts 1, and an 8-entry sequence counts at most 8. -/
theorem numberOfAlive_spec_witness :
    numberOfAlive (List.replicate 8 (none : Option stateType)) = 0 ∧
    numberOfAlive (List.replicate 8 (some stateType.DEAD)) = 0 ∧
    numberOfAlive ([some stateType.DEAD, some stateType.DEAD, some stateType.DEAD,
      some stateType.DEAD, some stateType.DEAD, some stateType.DEAD] ++
        some stateType.ALIVE :: [none]) = 1 ∧
    numberOfAlive (List.replicate 8 (some stateType.ALIVE)) ≤ 8 :=
  ⟨numberOfAlive_spec.2.2.1 _ (by decide),
    numberOfAlive_spec.2.2.1 _ (by decide),
    numberOfAlive_spec.2.2.2.2 _ _ (by decide) (by decide),
    numberOfAlive_spec.1 _ (by decide)⟩

/-- The playback status: `"resumed" | "paused"` in the source. -/
inductive Status where
  | resumed
  | paused
deriving DecidableEq, Repr

/-- The keys of `systemModelType`: the argument passed to change listeners
(`keyof systemModelType` in the source). -/
inductive ChangeField where
  | model
  | gap
  | fps
  | status
  | dimension
  | drawContext
deriving DecidableEq, Repr

/-- The `systemModelType` record of the source: the snapshot shape returned
by `getModel`.  The engine model `M` and the draw context `D` are opaque to
`SystemModel`, so they are type parameters. -/
structure systemModelType (M D : Type) where
  model : M
  gap : ℤ
  fps : ℤ
  status : Status
  dimension : ℤ
  drawContext : D
deriving DecidableEq

/-- The mutable state of the `SystemModel` class.  Listeners are opaque
callbacks; they are represented by identifiers of type `L`, and a setter
returns the ordered trace of listener invocations it performs.  The ghost
field `snapshots` records the heap objects previously returned by
`getModel` (the source allocates a fresh object literal per call), so that
frame effects of the setters on those objects can be stated. -/
structure SystemModel (M D L : Type) where
  onChangeListeners : List L
  model : M
  gap : ℤ
  fps : ℤ
  status : Status
  dimension : ℤ
  drawContext : D
  snapshots : List (systemModelType M D)
deriving DecidableEq

/-- `onChange(param)`: `this.onChangeListeners.forEach((cb) => cb(param))` —
the trace of invocations, one per registered listener, in list order. -/
def onChange {M D L : Type} (s : SystemModel M D L) (param : ChangeField) :
    List (L × ChangeField) :=
  s.onChangeListeners.map (fun cb => (cb, param))

/-- `setModel`: assign the field, then notify with `"model"`. -/
def setModel {M D L : Type} (s : SystemModel M D L) (m : M) :
    SystemModel M D L × List (L × ChangeField) :=
  ({ s with model := m }, onChange { s with model := m } ChangeField.model)

/-- `setGap`: assign the field (no clamping in the source), then notify
with `"gap"`. -/
def setGap {M D L : Type} (s : SystemModel M D L) (g : ℤ) :
    SystemModel M D L × List (L × ChangeField) :=
  ({ s with gap := g }, onChange { s with gap := g } ChangeField.gap)

/-- `setFps`: assign the field (no clamping in the source), then notify
with `"fps"`. -/
def setFps {M D L : Type} (s : SystemModel M D L) (f : ℤ) :
    SystemModel M D L × List (L × ChangeField) :=
  ({ s with fps := f }, onChange { s with fps := f } ChangeField.fps)

/-- `setStatus`: assign the field, then notify with `"status"`. -/
def setStatus {M D L : Type} (s : SystemModel M D L) (st : Status) :
    SystemModel M D L × List (L × ChangeField) :=
  ({ s with status := st }, onChange { s with status := st } ChangeField.status)

/-- `setDimension`: assign the field, then notify with `"dimension"`. -/
def setDimension {M D L : Type} (s : SystemModel M D L) (dim : ℤ) :
    SystemModel M D L × List (L × ChangeField) :=
  ({ s with dimension := dim }, onChange { s with dimension := dim } ChangeField.dimension)

/-- `setDrawContext`: assign the field, then notify with `"drawContext"`. -/
def setDrawContext {M D L : Type} (s : SystemModel M D L) (dc : D) :
    SystemModel M D L × List (L × ChangeField) :=
  ({ s with drawContext := dc },
    onChange { s with drawContext := dc } ChangeField.drawContext)

/-- The object literal built by `getModel`: a copy of the six fields. -/
def toSnapshot {M D L : Type} (s : SystemModel M D L) : systemModelType M D :=
  { model := s.model, gap := s.gap, fps := s.fps, status := s.status,
    dimension := s.dimension, drawContext := s.drawContext }

/-- `getModel`: returns a freshly allocated copy of the current fields; the
ghost `snapshots` field records the new object. -/
def getModel {M D L : Type} (s : SystemModel M D L) :
    SystemModel M D L × systemModelType M D :=
  ({ s with snapshots := s.snapshots ++ [toSnapshot s] }, toSnapshot s)

/-- `addOnChangeListener`: `this.onChangeListeners.push(cb)`. -/
def addOnChangeListener {M D L : Type} (s : SystemModel M D L) (cb : L) :
    SystemModel M D L :=
  { s with onChangeListeners := s.onChangeListeners ++ [cb] }

/-- C3: every SystemModel setter, for every current state and every list of
registered listeners, performs its field mutation (leaving every other
field and the listener list unchanged) and then synchronously invokes every
registered listener exactly once, in registration order, with the name of
the changed field — the invocation trace is exactly the listener list
paired with that field name — and this holds for every new value, including
one equal to the current value (no dedup). -/
theorem setters_mutate_then_notify :
    ∀ (M D L : Type) (s : SystemModel M D L) (m : M) (g f dim : ℤ)
      (st : Status) (dc : D),
      ((setModel s m).1 = { s with model := m } ∧
        (setModel s m).2 = s.onChangeListeners.map (fun cb => (cb, ChangeField.model))) ∧
      ((setGap s g).1 = { s with gap := g } ∧
        (setGap s g).2 = s.onChangeListeners.map (fun cb => (cb, ChangeField.gap))) ∧
      ((setFps s f).1 = { s with fps := f } ∧
        (setFps s f).2 = s.onChangeListeners.map (fun cb => (cb, ChangeField.fps))) ∧
      ((setStatus s st).1 = { s with status := st } ∧
        (setStatus s st).2 = s.onChangeListeners.map (fun cb => (cb, ChangeField.status))) ∧
      ((setDimension s dim).1 = { s with dimension := dim } ∧
        (setDimension s dim).2 =
          s.onChangeListeners.map (fun cb => (cb, ChangeField.dimension))) ∧
      ((setDrawContext s dc).1 = { s with drawContext := dc } ∧
        (setDrawContext s dc).2 =
          s.onChangeListeners.map (fun cb => (cb, ChangeField.drawContext))) :=
  fun _ _ _ _ _ _ _ _ _ _ =>
    ⟨⟨rfl, rfl⟩, ⟨rfl, rfl⟩, ⟨rfl, rfl⟩, ⟨rfl, rfl⟩, ⟨rfl, rfl⟩, ⟨rfl, rfl⟩⟩

/-- A concrete SystemModel state used to evaluate the setters on concrete
arguments. -/
def sampleModel : SystemModel ℕ ℕ ℕ :=
  { onChangeListeners := [], model := 0, gap := 0, fps := 30,
    status := Status.paused, dimension := 100, drawContext := 0, snapshots := [] }

/-- C4 counterexample: `SystemModel.setGap` and `setFps` do not clamp.
After `setGap 5` the stored gap is 5, outside [0,2]; after `setFps 0` the
stored fps is 0, outside [1,60]. -/
theorem setGap_setFps_unclamped_cex :
    (setGap sampleModel 5).1.gap = 5 ∧
    ¬ (setGap sampleModel 5).1.gap ≤ 2 ∧
    (setFps sampleModel 0).1.fps = 0 ∧
    ¬ 1 ≤ (setFps sampleModel 0).1.fps :=
  ⟨rfl, by decide, rfl, by decide⟩

/-- C4 amended: for every integer argument, `setGap` and `setFps` never
reject — they always succeed and store the requested value verbatim, with
no clamping at the setter; range enforcement is left to the callers (the
UI range inputs expose only gap 0..2 and fps 1..60). -/
theorem setGap_setFps_store_verbatim :
    ∀ (M D L : Type) (s : SystemModel M D L) (g f : ℤ),
      (setGap s g).1.gap = g ∧ (setFps s f).1.fps = f :=
  fun _ _ _ _ _ _ => ⟨rfl, rfl⟩

/-- C5: `getModel` returns an immutable copy: the returned snapshot is a
copy of the current fields, every setter leaves the previously returned
snapshot objects untouched, and after a snapshot is taken a subsequent
mutation changes the live model but not the recorded snapshot. -/
theorem getModel_immutable_copy :
    ∀ (M D L : Type) (s : SystemModel M D L) (m : M) (g f dim : ℤ)
      (st : Status) (dc : D),
      (getModel s).2 = toSnapshot s ∧
      (getModel s).1.snapshots = s.snapshots ++ [toSnapshot s] ∧
      (setModel s m).1.snapshots = s.snapshots ∧
      (setGap s g).1.snapshots = s.snapshots ∧
      (setFps s f).1.snapshots = s.snapshots ∧
      (setStatus s st).1.snapshots = s.snapshots ∧
      (setDimension s dim).1.snapshots = s.snapshots ∧
      (setDrawContext s dc).1.snapshots = s.snapshots ∧
      (setGap (getModel s).1 g).1.snapshots = s.snapshots ++ [toSnapshot s] ∧
      toSnapshot (setGap (getModel s).1 g).1 = { toSnapshot s with gap := g } :=
  fun _ _ _ _ _ _ _ _ _ _ =>
    ⟨rfl, rfl, rfl, rfl, rfl, rfl, rfl, rfl, rfl, rfl⟩

/-- C10: the listener list is append-only — `addOnChangeListener` appends
the callback and changes nothing else, no setter changes the listener
list, a callback occurring n times in the list is invoked n times per
notification, and every registered listener is invoked on every change. -/
theorem listener_list_append_only :
    ∀ (M D L : Type) [DecidableEq L] (s : SystemModel M D L) (cb : L)
      (param : ChangeField) (g : ℤ),
      addOnChangeListener s cb =
        { s with onChangeListeners := s.onChangeListeners ++ [cb] } ∧
      (onChange s param).countP (fun e => e = (cb, param)) =
        s.onChangeListeners.countP (fun c => c = cb) ∧
      (cb ∈ s.onChangeListeners → (cb, param) ∈ onChange s param) ∧
      (setGap s g).2.countP (fun e => e = (cb, ChangeField.gap)) =
        s.onChangeListeners.countP (fun c => c = cb) ∧
      (setGap s g).1.onChangeListeners = s.onChangeListeners := by
  intro M D L instL s cb param g
  refine ⟨rfl, ?_, ?_, ?_, rfl⟩
  · rw [onChange, List.countP_map]
    apply List.countP_congr
    intro c _
    simp
  · exact fun h => List.mem_map_of_mem _ h
  · show (onChange { s with gap := g } ChangeField.gap).countP _ = _
    rw [onChange, List.countP_map]
    apply List.countP_congr
    intro c _
    simp

/-- A concrete SystemModel state with one registered listener. -/
def sampleListeners : SystemModel ℕ ℕ ℕ :=
  { sampleModel with onChangeListeners := [7] }

/-- Witness for C10 at a concrete state with listener 7 registered: the
registered listener is invoked when `gap` changes, exactly once. -/
theorem listener_list_append_only_witness :
    ((7 : ℕ), ChangeField.gap) ∈ onChange sampleListeners ChangeField.gap ∧
    (onChange sampleListeners ChangeField.gap).countP
        (fun e => e = ((7 : ℕ), ChangeField.gap)) =
      sampleListeners.onChangeListeners.countP (fun c => c = 7) :=
  ⟨(listener_list_append_only ℕ ℕ ℕ sampleListeners 7 ChangeField.gap 1).2.2.1
      (by decide),
    (listener_list_append_only ℕ ℕ ℕ sampleListeners 7 ChangeField.gap 1).2.1⟩

/-- An (x, y) simulation-space coordinate. -/
structure CartesianPoint where
  x : ℤ
  y : ℤ
deriving DecidableEq, Repr

/-- A (row, col) grid-space coordinate. -/
structure MatrixPoint where
  row : ℤ
  col : ℤ
deriving DecidableEq, Repr

/-- The viewport: origin, visible cell count per side, inter-cell gap. -/
structure Viewport where
  origin : CartesianPoint
  visibleSize : ℤ
  gap : ℤ
deriving DecidableEq, Repr

/-- The data-model invariant of a Viewport: visibleSize even and ≥ 2, gap
in [0, 2]. -/
abbrev ValidViewport (v : Viewport) : Prop :=
  2 ≤ v.visibleSize ∧ v.visibleSize % 2 = 0 ∧ 0 ≤ v.gap ∧ v.gap ≤ 2

/-- The cell pitch of the spec: 1 + gap. -/
def pitch (v : Viewport) : ℤ :=
  1 + v.gap

/-- Modelled from the spec: the CoordinateSystem implementation is not among
the sources.  `matrixToCartesian` is a pure affine transform using
`viewport.origin` and cell pitch = 1 + gap. -/
def matrixToCartesian (p : MatrixPoint) (v : Viewport) : CartesianPoint :=
  { x := v.origin.x + pitch v * p.col, y := v.origin.y + pitch v * p.row }

/-- Modelled from the spec: the inverse affine transform of
`matrixToCartesian`. -/
def cartesianToMatrix (c : CartesianPoint) (v : Viewport) : MatrixPoint :=
  { row := (c.y - v.origin.y) / pitch v, col := (c.x - v.origin.x) / pitch v }

/-- C6: `matrixToCartesian` followed by `cartesianToMatrix` is the identity
for every MatrixPoint and every valid Viewport (any origin, any even
visibleSize ≥ 2, any gap in [0, 2]). -/
theorem matrixToCartesian_left_inverse :
    ∀ (p : MatrixPoint) (v : Viewport), ValidViewport v →
      cartesianToMatrix (matrixToCartesian p v) v = p := by
  intro p v hv
  obtain ⟨hsize, heven, hgap0, hgap2⟩ := hv
  have hp : pitch v ≠ 0 := by unfold pitch; omega
  cases p with
  | mk prow pcol =>
    unfold cartesianToMatrix matrixToCartesian
    rw [MatrixPoint.mk.injEq]
    constructor
    · have h : v.origin.y + pitch v * prow - v.origin.y = pitch v * prow := by ring
      rw [h, Int.mul_ediv_cancel_left _ hp]
    · have h : v.origin.x + pitch v * pcol - v.origin.x = pitch v * pcol := by ring
      rw [h, Int.mul_ediv_cancel_left _ hp]

/-- A concrete valid viewport. -/
def sampleViewport : Viewport :=
  { origin := { x := 5, y := -3 }, visibleSize := 10, gap := 1 }

/-- Witness for C6 at a concrete point and viewport. -/
theorem matrixToCartesian_left_inverse_witness :
    cartesianToMatrix (matrixToCartesian { row := 3, col := -4 } sampleViewport)
      sampleViewport = { row := 3, col := -4 } :=
  matrixToCartesian_left_inverse { row := 3, col := -4 } sampleViewport (by decide)

/-- Modelled from the spec: `zoomTo(n)` clamps `n` into the valid range and
rounds down to the nearest value with the parity of the current
visibleSize; as in the frontend size input, the range is [2 + off, 200 + off]
with parity offset off = visibleSize % 2 (off = 0 under the even-size
invariant, giving [2, 200]). -/
def zoomToSize (size n : ℤ) : ℤ :=
  max (2 + size % 2) (min (200 + size % 2) n) -
    (max (2 + size % 2) (min (200 + size % 2) n) - size % 2) % 2

/-- Modelled from the spec: `zoomTo` updates the viewport's visibleSize to
the clamped, parity-consistent value. -/
def zoomTo (v : Viewport) (n : ℤ) : Viewport :=
  { v with visibleSize := zoomToSize v.visibleSize n }

/-- Modelled from the spec: `zoomIn` adjusts visibleSize by the fixed step
+2, clamped to [2, 200]. -/
def zoomIn (v : Viewport) : Viewport :=
  { v with visibleSize := max 2 (min 200 (v.visibleSize + 2)) }

/-- Modelled from the spec: `zoomOut` adjusts visibleSize by the fixed step
-2, clamped to [2, 200]. -/
def zoomOut (v : Viewport) : Viewport :=
  { v with visibleSize := max 2 (min 200 (v.visibleSize - 2)) }

/-- C7: for every integer n and every viewport satisfying the data-model
invariant (even visibleSize in [2, 200]), `zoomTo n` yields a visibleSize
clamped into [2, 200] with the parity of the current viewport; `zoomIn` and
`zoomOut` adjust visibleSize by exactly the fixed step 2, clamped to the
same range, preserving evenness. -/
theorem zoom_clamped_parity :
    ∀ (v : Viewport) (n : ℤ),
      2 ≤ v.visibleSize → v.visibleSize ≤ 200 → v.visibleSize % 2 = 0 →
      (2 ≤ (zoomTo v n).visibleSize ∧ (zoomTo v n).visibleSize ≤ 200 ∧
        (zoomTo v n).visibleSize % 2 = v.visibleSize % 2) ∧
      (2 ≤ (zoomIn v).visibleSize ∧ (zoomIn v).visibleSize ≤ 200 ∧
        (zoomIn v).visibleSize % 2 = 0 ∧
        (v.visibleSize + 2 ≤ 200 → (zoomIn v).visibleSize = v.visibleSize + 2) ∧
        (200 < v.visibleSize + 2 → (zoomIn v).visibleSize = 200)) ∧
      (2 ≤ (zoomOut v).visibleSize ∧ (zoomOut v).visibleSize ≤ 200 ∧
        (zoomOut v).visibleSize % 2 = 0 ∧
        (2 ≤ v.visibleSize - 2 → (zoomOut v).visibleSize = v.visibleSize - 2) ∧
        (v.visibleSize - 2 < 2 → (zoomOut v).visibleSize = 2)) := by
  intro v n h2 h200 heven
  unfold zoomTo zoomToSize zoomIn zoomOut
  dsimp only
  omega

/-- Witness for C7: a concrete viewport of size 10 with an out-of-range
zoom request, which is clamped to 200 and stays even. -/
theorem zoom_clamped_parity_witness :
    2 ≤ (zoomTo sampleViewport 999).visibleSize ∧
    (zoomTo sampleViewport 999).visibleSize ≤ 200 ∧
    (zoomTo sampleViewport 999).visibleSize % 2 = sampleViewport.visibleSize % 2 :=
  (zoom_clamped_parity sampleViewport 999 (by decide) (by decide) (by decide)).1

/-- A named seed pattern: relative offsets from an anchor (the preset data
format of the spec). -/
structure Preset where
  id : String
  name : String
  pattern : List (ℤ × ℤ)
deriving DecidableEq, Repr

/-- Modelled from the spec: `PresetLibrary.find(id) -> Preset or none` —
the first preset with the given id, none when absent. -/
def findPreset (lib : List Preset) (pid : String) : Option Preset :=
  lib.find? (fun p => p.id = pid)

/-- Modelled from the spec: `Grid.load` clears all existing alive cells,
then marks `anchor + offset` alive for every offset in the pattern. -/
def load (pattern : List (ℤ × ℤ)) (anchor : GridPoint) : Grid :=
  (pattern.map (translate anchor)).toFinset

/-- Modelled from the spec: the viewport center expressed in matrix space. -/
def viewportCenter (v : Viewport) : GridPoint :=
  ((cartesianToMatrix
      { x := v.origin.x + v.visibleSize / 2, y := v.origin.y + v.visibleSize / 2 }
      v).row,
    (cartesianToMatrix
      { x := v.origin.x + v.visibleSize / 2, y := v.origin.y + v.visibleSize / 2 }
      v).col)

/-- Modelled from the spec: the Engine composes the Grid, the current
Viewport and a monotonically increasing iteration counter. -/
structure Engine where
  grid : Grid
  viewport : Viewport
  iter : ℕ
deriving DecidableEq

/-- Modelled from the spec: `setPreset(id)` looks the pattern up in the
PresetLibrary; if found, loads it anchored at the viewport center and
resets the iteration counter to 0; if not found, no-op. -/
def setPreset (lib : List Preset) (pid : String) (e : Engine) : Engine :=
  match findPreset lib pid with
  | none => e
  | some p => { e with grid := load p.pattern (viewportCenter e.viewport), iter := 0 }

/-- C8: for every engine state, `setPreset` with an id not present in the
library leaves the Grid's alive-cell set, the viewport and the iteration
counter unchanged and raises no error; with an id that is found, the
pattern is loaded at the viewport center and the iteration counter is
reset to 0. -/
theorem setPreset_found_or_noop :
    ∀ (lib : List Preset) (pid : String) (e : Engine),
      (findPreset lib pid = none →
        (setPreset lib pid e).grid = e.grid ∧
        (setPreset lib pid e).viewport = e.viewport ∧
        (setPreset lib pid e).iter = e.iter) ∧
      ∀ p : Preset, findPreset lib pid = some p →
        (setPreset lib pid e).grid = load p.pattern (viewportCenter e.viewport) ∧
        (setPreset lib pid e).viewport = e.viewport ∧
        (setPreset lib pid e).iter = 0 := by
  intro lib pid e
  constructor
  · intro h
    simp [setPreset, h]
  · intro p h
    simp [setPreset, h]

/-- The id of the sample blinker preset. -/
def blinkerId : String := "blinker"

/-- An id that is absent from the sample library. -/
def unknownId : String := "no-such-preset"

/-- A sample preset. -/
def blinkerPreset : Preset :=
  { id := blinkerId, name := blinkerId, pattern := [(0, 0), (0, 1), (0, 2)] }

/-- A one-preset sample library. -/
def sampleLibrary : List Preset :=
  [blinkerPreset]

/-- A concrete engine state. -/
def sampleEngine : Engine :=
  { grid := blinker, viewport := sampleViewport, iter := 5 }

/-- Witness for C8: with the unknown id nothing changes; with the known id
the blinker pattern is loaded at the viewport center and the counter
resets. -/
theorem setPreset_found_or_noop_witness :
    ((setPreset sampleLibrary unknownId sampleEngine).grid = sampleEngine.grid ∧
      (setPreset sampleLibrary unknownId sampleEngine).viewport =
        sampleEngine.viewport ∧
      (setPreset sampleLibrary unknownId sampleEngine).iter = sampleEngine.iter) ∧
    ((setPreset sampleLibrary blinkerId sampleEngine).grid =
        load blinkerPreset.pattern (viewportCenter sampleEngine.viewport) ∧
      (setPreset sampleLibrary blinkerId sampleEngine).viewport =
        sampleEngine.viewport ∧
      (setPreset sampleLibrary blinkerId sampleEngine).iter = 0) :=
  ⟨(setPreset_found_or_noop sampleLibrary unknownId sampleEngine).1 (by decide),
    (setPreset_found_or_noop sampleLibrary blinkerId sampleEngine).2 blinkerPreset
      (by decide)⟩

/-- The six preset groups imported by the catalog declaration; their
contents are not among the sources, so they are represented by their
identifiers. -/
inductive PresetGroupId where
  | stillLife
  | oscillators
  | methuselahs
  | spaceships
  | gliderGun
  | puffer
deriving DecidableEq, Repr

/-- The `presetGroups` catalog of the source: the readonly array listing
the six groups in declaration order. -/
def presetGroups : List PresetGroupId :=
  [PresetGroupId.stillLife, PresetGroupId.oscillators, PresetGroupId.methuselahs,
    PresetGroupId.spaceships, PresetGroupId.gliderGun, PresetGroupId.puffer]

/-- Modelled from the spec: `getPresets` (`listGroups`) returns the
catalog. -/
def getPresets : Unit → List PresetGroupId :=
  fun _ => presetGroups

/-- C9: `getPresets` returns the preset groups in a stable deterministic
order — the category groups in declaration order — identical on every
call, each group listed exactly once, and the returned catalog is the
construction-time constant (there is no mutation operation). -/
theorem getPresets_stable_order :
    (∀ u₁ u₂ : Unit, getPresets u₁ = getPresets u₂) ∧
    (∀ u : Unit, getPresets u = presetGroups) ∧
    getPresets () = [PresetGroupId.stillLife, PresetGroupId.oscillators,
      PresetGroupId.methuselahs, PresetGroupId.spaceships, PresetGroupId.gliderGun,
      PresetGroupId.puffer] ∧
    presetGroups.Nodup :=
  ⟨fun _ _ => rfl, fun _ => rfl, rfl, by decide⟩

end GameOfLife
